import Mathlib

/-!
Verification of the slant-column geometry and receptor-discretization core of
the Atmos_Column repository (`atmos_column/funcs/ac_funcs.py`), as a shallow
embedding in Lean 4.

Modelling conventions:
* Python floats are modelled as `ℚ`; a float `NaN` field is modelled as
  `Option ℚ` with `none` for NaN (pandas `dropna` drops rows holding `none`).
* Timestamps are modelled as `ℚ` (seconds on a fixed timeline); timezone
  plumbing does not change any of the arithmetic modelled here.
* The external collaborators (pysolar solar position, numpy `tan∘deg2rad`,
  geographiclib `Geodesic.WGS84.Direct`, and the DEM terrain lookup) are
  parameters of the embedding: the repository only consumes them.
* A Python `raise` is modelled with `Except String`.
* numpy/pandas rounding (`round`) rounds half to even; `round_half_even`
  below is the exact-rational model of that rule.
-/

namespace AtmosColumn

/-- Round-half-even on a rational, the rounding rule used by numpy/pandas
`round`. Returns the nearest integer; ties go to the even integer. -/
def round_half_even (q : ℚ) : ℤ :=
  if q - ⌊q⌋ < 1/2 then ⌊q⌋
  else if 1/2 < q - ⌊q⌋ then ⌊q⌋ + 1
  else if ⌊q⌋ % 2 = 0 then ⌊q⌋ else ⌊q⌋ + 1

/-- Model of pandas `Series.round(n)`: round to `n` decimal places
(half to even on the scaled value). -/
def round_dp (n : ℕ) (q : ℚ) : ℚ :=
  (round_half_even (q * 10 ^ n) : ℚ) / 10 ^ n

/-- Model of pandas timestamp rounding `round('S')`: round the timestamp
(in seconds) to the nearest whole second. -/
def round_sec (q : ℚ) : ℚ :=
  (round_half_even q : ℚ)

/-- External collaborators used by `slant_lat_lon` in
`atmos_column/funcs/ac_funcs.py`: pysolar's solar position functions, the
numpy tangent of an angle given in degrees (`np.tan (np.deg2rad …)`), and
geographiclib's direct geodesic solve on the WGS84 ellipsoid
(`Geodesic.WGS84.Direct`, returning the destination `lat2`/`lon2` from a
start point, an azimuth and a distance). The repository only consumes
these functions, so they are parameters of the embedding. -/
structure SolarGeom where
  get_altitude : ℚ → ℚ → ℚ → ℚ
  get_azimuth : ℚ → ℚ → ℚ → ℚ
  tan_deg : ℚ → ℚ
  geod_direct : ℚ → ℚ → ℚ → ℚ → ℚ × ℚ

/-- Embedding of `slant_lat_lon(inst_lat, inst_lon, dt, z_above_inst)`
(`ac_funcs.py` lines 260-290).  The source computes the solar zenith angle
`90 - get_altitude(...)`; if it exceeds 90° it returns `(np.nan, np.nan)`
(modelled as `none`), otherwise it projects the point
`Direct(lat, lon, azimuth, z * tan(zenith))` and returns its lat/lon.
The Python `try/except` around `get_altitude` only converts a pandas
timestamp to `datetime.datetime` and is therefore not represented; the
function body raises no exception, which the embedding reflects by being
a total function. -/
def slant_lat_lon (G : SolarGeom) (inst_lat inst_lon dt z_above_inst : ℚ) :
    Option (ℚ × ℚ) :=
  let sol_zen_deg := 90 - G.get_altitude inst_lat inst_lon dt
  if sol_zen_deg > 90 then
    none
  else
    let sol_azi_deg := G.get_azimuth inst_lat inst_lon dt
    let arc_dist := z_above_inst * G.tan_deg sol_zen_deg
    let new_point := G.geod_direct inst_lat inst_lon sol_azi_deg arc_dist
    some new_point

/-- Claim C1: for every instrument latitude/longitude, every timestamp at
which the solar zenith angle (`90 - get_altitude`) exceeds 90 degrees (sun
below the horizon), and every height above the instrument, `slant_lat_lon`
returns the undefined position (`none`, modelling `(NaN, NaN)`); being a
total function of its inputs, it raises no exception. -/
theorem C1_horizon_returns_undefined (G : SolarGeom)
    (inst_lat inst_lon dt z : ℚ)
    (h : 90 - G.get_altitude inst_lat inst_lon dt > 90) :
    slant_lat_lon G inst_lat inst_lon dt z = none := by
  unfold slant_lat_lon
  simp only [if_pos h]

/-- Concrete witness for C1: a solar model whose altitude is -10° (night)
makes the projector return `none` at any height. -/
def nightGeom : SolarGeom where
  get_altitude := fun _ _ _ => -10
  get_azimuth := fun _ _ _ => 180
  tan_deg := fun _ => 1
  geod_direct := fun la lo _ d => (la + d, lo)

theorem C1_horizon_returns_undefined_witness :
    slant_lat_lon nightGeom 40 (-111) 0 100 = none :=
  C1_horizon_returns_undefined nightGeom 40 (-111) 0 100 (by norm_num [nightGeom])

/-- Claim C6: for every solar model whose direct-geodesic collaborator
satisfies the distance-zero identity (`Direct(lat, lon, azi, 0)` returns the
start point, the documented geographiclib behaviour), and every timestamp at
which the sun is at or above the horizon (zenith at most 90°),
`slant_lat_lon` at height 0 returns the starting point itself: the
horizontal arc distance `0 * tan(zenith)` is 0. -/
theorem C6_zero_height_identity (G : SolarGeom) (inst_lat inst_lon dt : ℚ)
    (hup : ¬ (90 - G.get_altitude inst_lat inst_lon dt > 90))
    (hgeod : ∀ la lo az, G.geod_direct la lo az 0 = (la, lo)) :
    slant_lat_lon G inst_lat inst_lon dt 0 = some (inst_lat, inst_lon) := by
  unfold slant_lat_lon
  simp only [if_neg hup, zero_mul, hgeod]

/-- Concrete witness for C6: a daylight solar model (altitude 45°) whose
geodesic is the WGS84-style direct solve restricted to the distance-zero
identity, evaluated at a concrete instrument position. -/
def dayGeom : SolarGeom where
  get_altitude := fun _ _ _ => 45
  get_azimuth := fun _ _ _ => 180
  tan_deg := fun _ => 1
  geod_direct := fun la lo _ d => (la + d, lo)

theorem C6_zero_height_identity_witness :
    slant_lat_lon dayGeom 40 (-111) 0 0 = some (40, -111) :=
  C6_zero_height_identity dayGeom 40 (-111) 0
    (by norm_num [dayGeom]) (by intro la lo az; simp [dayGeom])

/-- One row of the un-annotated slant dataframe built by
`ground_slant_handler.create_initial_slantdf`: the multiindex levels `dt`
and `z_ail` and the columns `inst_lat`, `inst_lon`, `inst_zasl`,
`receptor_lat`, `receptor_lon`, `receptor_zasl`.  The receptor lat/lon may
be NaN (sun below horizon), modelled as `Option`. -/
structure BaseRow where
  dt : ℚ
  z_ail : ℚ
  inst_lat : ℚ
  inst_lon : ℚ
  inst_zasl : ℚ
  receptor_lat : Option ℚ
  receptor_lon : Option ℚ
  receptor_zasl : ℚ
deriving DecidableEq

/-- One row of the annotated slant dataframe after `add_sh_and_agl`: the
three added columns are the surface height `receptor_shasl` (NaN outside
the DEM coverage or when lat/lon are NaN), the height above ground
`receptor_zagl` (`receptor_zasl - receptor_shasl`, NaN when the surface
height is) and the boolean `receptor_z_is_agl` (`receptor_zagl.gt(0)`,
which in pandas is `False` on NaN). -/
structure SlantRow where
  dt : ℚ
  z_ail : ℚ
  inst_lat : ℚ
  inst_lon : ℚ
  inst_zasl : ℚ
  receptor_lat : Option ℚ
  receptor_lon : Option ℚ
  receptor_zasl : ℚ
  receptor_shasl : Option ℚ
  receptor_zagl : Option ℚ
  receptor_z_is_agl : Bool
deriving DecidableEq

/-- A slant row after the rename/column-selection step of
`slant_df_to_rec_df`: columns `run_times`, `lati`, `long`, `zagl`,
`z_is_agl`, `zasl`, `zail`, still possibly holding NaN in `lati`, `long`
and `zagl`. -/
structure MidRow where
  run_times : ℚ
  lati : Option ℚ
  long : Option ℚ
  zagl : Option ℚ
  z_is_agl : Bool
  zasl : ℚ
  zail : ℚ
deriving DecidableEq

/-- A surviving row after `dropna`: every required field is defined. -/
structure DroppedRow where
  run_times : ℚ
  lati : ℚ
  long : ℚ
  zagl : ℚ
  z_is_agl : Bool
  zasl : ℚ
  zail : ℚ
deriving DecidableEq

/-- A receptor row as returned by `slant_df_to_rec_df`: a surviving row
together with its simulation id. -/
structure RecRow where
  sim_id : ℕ
  run_times : ℚ
  lati : ℚ
  long : ℚ
  zagl : ℚ
  z_is_agl : Bool
  zasl : ℚ
  zail : ℚ
deriving DecidableEq

/-- Embedding of the `reset_index` / `rename` / column-selection prefix of
`slant_df_to_rec_df` (`ac_funcs.py` lines 132-137): the two index levels
become the columns `run_times` (from `dt`) and `zail` (from `z_ail`), the
receptor columns are renamed, and exactly the seven receptor-file columns
are kept. -/
def selectRow (r : SlantRow) : MidRow :=
  { run_times := r.dt
    lati := r.receptor_lat
    long := r.receptor_lon
    zagl := r.receptor_zagl
    z_is_agl := r.receptor_z_is_agl
    zasl := r.receptor_zasl
    zail := r.z_ail }

/-- The in-place assignment `df1['lati'] = df1['lati'].round(4)`; rounding
a NaN keeps it NaN. -/
def roundLati (r : MidRow) : MidRow :=
  { r with lati := r.lati.map (round_dp 4) }

/-- The in-place assignment `df1['long'] = df1['long'].round(4)`. -/
def roundLong (r : MidRow) : MidRow :=
  { r with long := r.long.map (round_dp 4) }

/-- The in-place assignment `df1['zagl'] = df1['zagl'].round(2)`. -/
def roundZagl (r : MidRow) : MidRow :=
  { r with zagl := r.zagl.map (round_dp 2) }

/-- The in-place assignment rounding `run_times` to the nearest second. -/
def roundRunTimes (r : MidRow) : MidRow :=
  { r with run_times := round_sec r.run_times }

/-- Embedding of `df1.dropna()` restricted to one row of the selected
seven-column frame: the row survives exactly when none of its fields is
NaN; the only fields of the selected frame that can hold NaN are `lati`,
`long` and `zagl`. -/
def dropnaRow (r : MidRow) : Option DroppedRow :=
  match r.lati, r.long, r.zagl with
  | some la, some lo, some za =>
      some { run_times := r.run_times, lati := la, long := lo, zagl := za
             z_is_agl := r.z_is_agl, zasl := r.zasl, zail := r.zail }
  | _, _, _ => none

/-- Embedding of the final `reset_index(drop=True)` / `reset_index()` /
`rename(columns={'index':'sim_id'})` steps: the surviving rows are numbered
0,1,2,… in order and the number becomes the `sim_id` column. -/
def assignSimIds (l : List DroppedRow) : List RecRow :=
  l.enum.map fun p =>
    { sim_id := p.1
      run_times := p.2.run_times, lati := p.2.lati, long := p.2.long
      zagl := p.2.zagl, z_is_agl := p.2.z_is_agl
      zasl := p.2.zasl, zail := p.2.zail }

/-- Embedding of `slant_df_to_rec_df(df)` (`ac_funcs.py` lines 116-150):
copy, move the index into columns, rename, select the seven receptor
columns, round `lati`/`long` to 4 decimals and `zagl` to 2 decimals and
`run_times` to the second, drop the NaN rows, and number the surviving
rows densely from 0 as `sim_id`. -/
def slant_df_to_rec_df (df : List SlantRow) : List RecRow :=
  assignSimIds
    (((((df.map selectRow).map roundLati).map roundLong).map
        roundZagl).map roundRunTimes |>.filterMap dropnaRow)

/-- The fate of a single input slant row under `slant_df_to_rec_df`,
before ids are assigned: `none` exactly when the row is dropped. -/
def survives (r : SlantRow) : Option DroppedRow :=
  dropnaRow (roundRunTimes (roundZagl (roundLong (roundLati (selectRow r)))))

/-- Forgets the simulation id of a receptor row. -/
def stripSimId (r : RecRow) : DroppedRow :=
  { run_times := r.run_times, lati := r.lati, long := r.long
    zagl := r.zagl, z_is_agl := r.z_is_agl, zasl := r.zasl, zail := r.zail }

theorem slant_df_to_rec_df_eq (df : List SlantRow) :
    slant_df_to_rec_df df = assignSimIds (df.filterMap survives) := by
  unfold slant_df_to_rec_df survives
  simp only [List.map_map, List.filterMap_map]
  rfl

/-- Claim C2: for every input slant table, the `sim_id` values of the N
surviving rows of `slant_df_to_rec_df` are exactly `0..N-1`, read off in
the surviving rows' original relative order, with no gaps and no
duplicates. -/
theorem C2_dense_sim_ids (df : List SlantRow) :
    (slant_df_to_rec_df df).map RecRow.sim_id
      = List.range (slant_df_to_rec_df df).length := by
  rw [slant_df_to_rec_df_eq]
  unfold assignSimIds
  rw [List.map_map, List.length_map]
  have h : (RecRow.sim_id ∘ fun p : ℕ × DroppedRow =>
      ({ sim_id := p.1, run_times := p.2.run_times, lati := p.2.lati,
         long := p.2.long, zagl := p.2.zagl, z_is_agl := p.2.z_is_agl,
         zasl := p.2.zasl, zail := p.2.zail } : RecRow)) = Prod.fst := by
    funext p; rfl
  rw [h, List.enum_map_fst, List.enum_length]

/-- Claim C3: for every input slant table, the receptor rows produced by
`slant_df_to_rec_df` are (up to the appended simulation id) exactly the
formatted images of the input rows whose latitude, longitude and
height-above-ground are all defined, in order; a row with any of those
three fields undefined contributes nothing to the output, and a row with
all of them defined contributes exactly one output row. -/
theorem C3_undefined_rows_excluded (df : List SlantRow) :
    (slant_df_to_rec_df df).map stripSimId = df.filterMap survives ∧
      ∀ r : SlantRow, survives r = none ↔
        (r.receptor_lat = none ∨ r.receptor_lon = none ∨
          r.receptor_zagl = none) := by
  constructor
  · rw [slant_df_to_rec_df_eq]
    unfold assignSimIds
    rw [List.map_map]
    have h : (stripSimId ∘ fun p : ℕ × DroppedRow =>
        ({ sim_id := p.1, run_times := p.2.run_times, lati := p.2.lati,
           long := p.2.long, zagl := p.2.zagl, z_is_agl := p.2.z_is_agl,
           zasl := p.2.zasl, zail := p.2.zail } : RecRow)) = Prod.snd := by
      funext p; rfl
    rw [h, List.enum_map_snd]
  · intro r
    unfold survives dropnaRow roundRunTimes roundZagl roundLong roundLati
      selectRow
    rcases hla : r.receptor_lat with _ | la <;>
      rcases hlo : r.receptor_lon with _ | lo <;>
      rcases hza : r.receptor_zagl with _ | za <;> simp

/-- Helper: an element delivered by `getElem?` is a member of the list. -/
theorem mem_of_getElem?_eq {α : Type} :
    ∀ {l : List α} {n : ℕ} {a : α}, l[n]? = some a → a ∈ l := by
  intro l
  induction l with
  | nil => intro n a h; simp at h
  | cons x xs ih =>
    intro n a h
    cases n with
    | zero => simp only [List.getElem?_cons_zero, Option.some.injEq] at h; simp [h]
    | succ m =>
      simp only [List.getElem?_cons_succ] at h
      exact List.mem_cons_of_mem _ (ih h)

/-- Helper: the payload of an `enum` entry is a member of the list. -/
theorem snd_mem_of_mem_enum {α : Type} {l : List α} {p : ℕ × α}
    (h : p ∈ l.enum) : p.2 ∈ l := by
  rw [List.mem_enum_iff_getElem?] at h
  exact mem_of_getElem?_eq h

theorem round_half_even_nonneg {q : ℚ} (h : 0 ≤ q) :
    0 ≤ round_half_even q := by
  unfold round_half_even
  have hf : (0:ℤ) ≤ ⌊q⌋ := Int.floor_nonneg.mpr h
  split
  · exact hf
  · split
    · omega
    · split <;> omega

theorem round_half_even_nonpos {q : ℚ} (h : q ≤ 0) :
    round_half_even q ≤ 0 := by
  unfold round_half_even
  have hf : ⌊q⌋ ≤ 0 := Int.floor_nonpos h
  have hle : (⌊q⌋ : ℚ) ≤ q := Int.floor_le q
  split
  · exact hf
  · rename_i h1
    split
    · rename_i h2
      have hneg : ⌊q⌋ < 0 := by
        by_contra hc
        push_neg at hc
        have : (0:ℚ) ≤ (⌊q⌋:ℚ) := by exact_mod_cast hc
        have : q - (⌊q⌋:ℚ) ≤ 0 := by linarith
        linarith
      omega
    · rename_i h2
      push_neg at h1 h2
      have heq : q - (⌊q⌋:ℚ) = 1/2 := le_antisymm h2 h1
      have hneg : ⌊q⌋ < 0 := by
        by_contra hc
        push_neg at hc
        have : (0:ℚ) ≤ (⌊q⌋:ℚ) := by exact_mod_cast hc
        linarith
      split <;> omega

theorem round_dp_nonneg {n : ℕ} {q : ℚ} (h : 0 ≤ q) : 0 ≤ round_dp n q := by
  unfold round_dp
  apply div_nonneg
  · exact_mod_cast round_half_even_nonneg (by positivity)
  · positivity

theorem round_dp_nonpos {n : ℕ} {q : ℚ} (h : q ≤ 0) : round_dp n q ≤ 0 := by
  unfold round_dp
  apply div_nonpos_of_nonpos_of_nonneg
  · have := round_half_even_nonpos (q := q * 10 ^ n)
      (mul_nonpos_of_nonpos_of_nonneg h (by positivity))
    exact_mod_cast this
  · positivity

/-- The DEM terrain lookup, an external collaborator
(`DEM_handler.get_nearest_elev` in `ac_funcs.py`): a pure function of
lat/lon returning the nearest surface elevation, or NaN (`none`) when the
point is outside the DEM coverage.  Called with a NaN lat/lon (sun below
horizon), the source's coordinate slice is empty and it returns NaN, which
this lift reproduces. -/
def get_nearest_elev_lifted (dem : ℚ → ℚ → Option ℚ)
    (la lo : Option ℚ) : Option ℚ :=
  match la, lo with
  | some a, some o => dem a o
  | _, _ => none

/-- Embedding of `add_sh_and_agl(slant_df, my_dem_handler)` (`ac_funcs.py`
lines 292-309): adds `receptor_shasl` (nearest DEM surface height),
`receptor_zagl = receptor_zasl - receptor_shasl` (NaN when the surface
height is NaN) and `receptor_z_is_agl = receptor_zagl.gt(0)` (pandas `gt`
is `False` on NaN). -/
def add_sh_and_agl (df : List BaseRow) (dem : ℚ → ℚ → Option ℚ) :
    List SlantRow :=
  df.map fun r =>
    let shasl := get_nearest_elev_lifted dem r.receptor_lat r.receptor_lon
    let zagl := shasl.map fun s => r.receptor_zasl - s
    { dt := r.dt, z_ail := r.z_ail, inst_lat := r.inst_lat
      inst_lon := r.inst_lon, inst_zasl := r.inst_zasl
      receptor_lat := r.receptor_lat, receptor_lon := r.receptor_lon
      receptor_zasl := r.receptor_zasl
      receptor_shasl := shasl
      receptor_zagl := zagl
      receptor_z_is_agl := match zagl with
        | some g => decide (0 < g)
        | none => false }

/-- Counterexample input for claim C5: a single daylight slant point whose
unrounded height above ground comes out to 0.001 m (surface height
1491.999 m under a 1492 m receptor). -/
def C5_base : BaseRow :=
  { dt := 0, z_ail := 0, inst_lat := 40, inst_lon := -111, inst_zasl := 1492
    receptor_lat := some 40, receptor_lon := some (-111)
    receptor_zasl := 1492 }

/-- Counterexample DEM for claim C5: constant surface height 1491.999 m. -/
def C5_dem : ℚ → ℚ → Option ℚ := fun _ _ => some (1492 - 1/1000)

/-- The output receptor row of the counterexample pipeline run. -/
def C5_out : RecRow :=
  { sim_id := 0, run_times := 0, lati := 40, long := -111, zagl := 0
    z_is_agl := true, zasl := 1492, zail := 0 }

theorem C5_eval :
    slant_df_to_rec_df (add_sh_and_agl [C5_base] C5_dem) = [C5_out] := by
  have h1 : round_dp 4 (40 : ℚ) = 40 := by
    norm_num [round_dp, round_half_even]
  have h2 : round_dp 4 (-111 : ℚ) = -111 := by
    norm_num [round_dp, round_half_even]
  have h3 : round_dp 2 ((1492 : ℚ) - (1492 - 1/1000)) = 0 := by
    norm_num [round_dp, round_half_even]
  have h4 : round_sec (0 : ℚ) = 0 := by
    norm_num [round_sec, round_half_even]
  have h5 : decide ((0:ℚ) < 1492 - (1492 - 1/1000)) = true := by
    norm_num
  simp only [slant_df_to_rec_df, add_sh_and_agl, C5_base, C5_dem, C5_out,
    get_nearest_elev_lifted, selectRow, roundLati, roundLong, roundZagl,
    roundRunTimes, dropnaRow, assignSimIds, List.map_cons, List.map_nil,
    List.filterMap_cons, List.filterMap_nil, h1, h2, h3, h4, h5]
  norm_num [List.enum, round_dp, round_half_even]

/-- Claim C5 is false as stated: in the pipeline output for `C5_base`, the
surviving row has `z_is_agl = True` (its unrounded height above ground,
0.001 m, is positive) while its written `zagl` — rounded to 2 decimal
places — is 0, not strictly greater than 0. -/
theorem C5_counterexample :
    ∃ out ∈ slant_df_to_rec_df (add_sh_and_agl [C5_base] C5_dem),
      out.z_is_agl = true ∧ ¬ (0 < out.zagl) := by
  rw [C5_eval]
  exact ⟨C5_out, List.mem_singleton.mpr rfl, rfl, by norm_num [C5_out]⟩

/-- Claim C5, amended: for every receptor row surviving the
`add_sh_and_agl` → `slant_df_to_rec_df` pipeline, `z_is_agl` is `True` if
and only if the row's *unrounded* height above ground level is strictly
positive; since the written `zagl` is that height rounded to 2 decimals,
for the written value only the one-sided bounds hold (`z_is_agl = True`
implies written `zagl ≥ 0`, and `z_is_agl = False` implies written
`zagl ≤ 0`); the strict "written `zagl > 0`" direction can fail (see the
counterexample, where the written value is 0 with the flag `True`). -/
theorem C5_amended_above_ground_consistency (df : List BaseRow)
    (dem : ℚ → ℚ → Option ℚ) (out : RecRow)
    (hmem : out ∈ slant_df_to_rec_df (add_sh_and_agl df dem)) :
    ∃ q : ℚ, out.zagl = round_dp 2 q ∧ (out.z_is_agl = true ↔ 0 < q) ∧
      (out.z_is_agl = true → 0 ≤ out.zagl) ∧
      (out.z_is_agl = false → out.zagl ≤ 0) := by
  rw [slant_df_to_rec_df_eq] at hmem
  unfold assignSimIds at hmem
  rw [List.mem_map] at hmem
  obtain ⟨p, hp, hout⟩ := hmem
  have hpd : p.2 ∈ (add_sh_and_agl df dem).filterMap survives :=
    snd_mem_of_mem_enum hp
  rw [List.mem_filterMap] at hpd
  obtain ⟨r, hr, hsurv⟩ := hpd
  unfold add_sh_and_agl at hr
  rw [List.mem_map] at hr
  obtain ⟨b, _, hb⟩ := hr
  -- Unpack the surviving row: its lat/lon/zagl must all be `some`.
  unfold survives dropnaRow roundRunTimes roundZagl roundLong roundLati
    selectRow at hsurv
  rcases hla : r.receptor_lat with _ | la <;> rw [hla] at hsurv <;>
    try simp at hsurv
  rcases hlo : r.receptor_lon with _ | lo <;> rw [hlo] at hsurv <;>
    try simp at hsurv
  rcases hza : r.receptor_zagl with _ | za <;> rw [hza] at hsurv <;>
    try simp at hsurv
  -- The annotated row's flag is `decide (0 < za)` for its zagl `za`.
  have hflag : r.receptor_z_is_agl = decide (0 < za) := by
    subst hb
    simp only at hza ⊢
    rcases hdem : get_nearest_elev_lifted dem b.receptor_lat b.receptor_lon
      with _ | s <;> rw [hdem] at hza <;> simp_all
  refine ⟨za, ?_, ?_, ?_, ?_⟩
  · rw [← hout, ← hsurv]
  · rw [← hout, ← hsurv]
    simp only [hflag, decide_eq_true_eq]
  · intro hT
    rw [← hout, ← hsurv]
    rw [← hout, ← hsurv] at hT
    simp only [hflag, decide_eq_true_eq] at hT
    exact round_dp_nonneg hT.le
  · intro hF
    rw [← hout, ← hsurv]
    rw [← hout, ← hsurv] at hF
    simp only [hflag, decide_eq_false_iff_not, not_lt] at hF
    exact round_dp_nonpos hF

/-- Concrete witness for the amended claim C5, at the counterexample input:
the surviving row has flag `True`, written `zagl = 0`, and unrounded height
0.001 m. -/
theorem C5_amended_above_ground_consistency_witness :
    ∃ q : ℚ, C5_out.zagl = round_dp 2 q ∧
      (C5_out.z_is_agl = true ↔ 0 < q) ∧
      (C5_out.z_is_agl = true → 0 ≤ C5_out.zagl) ∧
      (C5_out.z_is_agl = false → C5_out.zagl ≤ 0) :=
  C5_amended_above_ground_consistency [C5_base] C5_dem C5_out
    (by rw [C5_eval]; exact List.mem_singleton.mpr rfl)

/-- Embedding of the `ground_slant_handler` class state (`ac_funcs.py`
lines 839-858): instrument position and the list of heights above the
instrument level at which receptors are placed. -/
structure GroundSlantHandler where
  inst_lat : ℚ
  inst_lon : ℚ
  inst_zasl : ℚ
  z_ail_list : List ℚ

/-- Embedding of `ground_slant_handler.create_initial_slantdf(dt_list)`
(`ac_funcs.py` lines 860-899): forms `itertools.product(dt_list,
z_ail_list)` (timestamp-major cross product), projects each pair with
`slant_lat_lon`, and sets `receptor_zasl = zail + inst_zasl` for every
row, defined independently of the projection result. -/
def create_initial_slantdf (G : SolarGeom) (h : GroundSlantHandler)
    (dt_list : List ℚ) : List BaseRow :=
  (List.product dt_list h.z_ail_list).map fun p =>
    let rl := slant_lat_lon G h.inst_lat h.inst_lon p.1 p.2
    { dt := p.1, z_ail := p.2, inst_lat := h.inst_lat
      inst_lon := h.inst_lon, inst_zasl := h.inst_zasl
      receptor_lat := rl.map Prod.fst
      receptor_lon := rl.map Prod.snd
      receptor_zasl := p.2 + h.inst_zasl }

/-- Claim C7: `create_initial_slantdf` returns exactly one row per
(timestamp, height) pair of the full cross product, in timestamp-major
order matching the input orders, and every row's elevation above sea level
equals the instrument elevation plus that row's height above the
instrument — a total (never NaN) field, whatever the projected lat/lon. -/
theorem C7_cross_product (G : SolarGeom) (h : GroundSlantHandler)
    (dt_list : List ℚ) :
    (create_initial_slantdf G h dt_list).map (fun r => (r.dt, r.z_ail))
        = List.product dt_list h.z_ail_list ∧
      ∀ r ∈ create_initial_slantdf G h dt_list,
        r.receptor_zasl = h.inst_zasl + r.z_ail := by
  constructor
  · unfold create_initial_slantdf
    rw [List.map_map]
    have : ((fun r : BaseRow => (r.dt, r.z_ail)) ∘ fun p : ℚ × ℚ =>
        ({ dt := p.1, z_ail := p.2, inst_lat := h.inst_lat
           inst_lon := h.inst_lon, inst_zasl := h.inst_zasl
           receptor_lat := (slant_lat_lon G h.inst_lat h.inst_lon
             p.1 p.2).map Prod.fst
           receptor_lon := (slant_lat_lon G h.inst_lat h.inst_lon
             p.1 p.2).map Prod.snd
           receptor_zasl := p.2 + h.inst_zasl } : BaseRow)) = id := by
      funext p; rfl
    rw [this, List.map_id]
  · intro r hr
    unfold create_initial_slantdf at hr
    rw [List.mem_map] at hr
    obtain ⟨p, _, hp⟩ := hr
    rw [← hp]
    exact add_comm p.2 h.inst_zasl

/-- Embedding of `pd.date_range(dt1, dt2, freq=interval)` on the ℚ
timeline: the arithmetic progression `dt1, dt1+f, dt1+2f, …` of every step
point not exceeding `dt2`; empty when the start is after the end. -/
def date_range (dt1 dt2 freq : ℚ) : List ℚ :=
  if 0 < freq ∧ dt1 ≤ dt2 then
    (List.range (⌊(dt2 - dt1) / freq⌋.toNat + 1)).map
      fun k : ℕ => dt1 + (k : ℚ) * freq
  else []

/-- Embedding of `create_dt_list(dt1, dt2, interval)` (`ac_funcs.py` lines
324-341): both the tz-aware and the naive branch call `pd.date_range` with
the same endpoints and frequency, so the embedding is a single call. -/
def create_dt_list (dt1 dt2 interval : ℚ) : List ℚ :=
  date_range dt1 dt2 interval

/-- Claim C9 is false as stated: with start 0, end 90 and interval 60 (in
minutes: a 90-minute range on an hourly step), the list is `[0, 60]` — the
end datetime 90 does not appear, because `pd.date_range` only reaches the
right endpoint when the range is an exact multiple of the interval. -/
theorem C9_counterexample :
    create_dt_list 0 90 60 = [0, 60] ∧
      ¬ ((90 : ℚ) ∈ create_dt_list 0 90 60) := by
  have h : create_dt_list 0 90 60 = [0, 60] := by
    unfold create_dt_list date_range
    rw [if_pos (by norm_num)]
    norm_num [List.range_succ]
  exact ⟨h, by rw [h]; norm_num⟩

/-- Claim C9, amended: for `dt1 ≤ dt2` and a positive interval, the list
produced by `create_dt_list` starts at `dt1`, every element advances from
`dt1` by a whole number of intervals, `dt1` itself always appears, and
`dt2` appears exactly when `dt2 - dt1` is a whole (nonnegative) number of
intervals — both endpoints are included only in that case. -/
theorem C9_amended_dt_list (dt1 dt2 f : ℚ) (hle : dt1 ≤ dt2) (hf : 0 < f) :
    (create_dt_list dt1 dt2 f).head? = some dt1 ∧
      (∀ x ∈ create_dt_list dt1 dt2 f, ∃ k : ℕ, x = dt1 + k * f) ∧
      dt1 ∈ create_dt_list dt1 dt2 f ∧
      (dt2 ∈ create_dt_list dt1 dt2 f ↔ ∃ n : ℕ, dt2 - dt1 = n * f) := by
  unfold create_dt_list date_range
  rw [if_pos ⟨hf, hle⟩]
  refine ⟨?_, ?_, ?_, ?_⟩
  · rw [List.range_succ_eq_map]
    simp
  · intro x hx
    rw [List.mem_map] at hx
    obtain ⟨k, _, hk⟩ := hx
    exact ⟨k, hk.symm⟩
  · rw [List.mem_map]
    exact ⟨0, List.mem_range.mpr (Nat.succ_pos _), by simp⟩
  · constructor
    · intro hx
      rw [List.mem_map] at hx
      obtain ⟨k, _, hk⟩ := hx
      exact ⟨k, by linarith⟩
    · rintro ⟨n, hn⟩
      rw [List.mem_map]
      refine ⟨n, List.mem_range.mpr ?_, by linarith⟩
      have hdiv : (dt2 - dt1) / f = (n : ℚ) := by
        rw [hn, mul_div_cancel_right₀ _ hf.ne']
      rw [hdiv]
      have : ⌊((n : ℕ) : ℚ)⌋ = (n : ℤ) := Int.floor_natCast n
      rw [this]
      simp

/-- Concrete witness for the amended claim C9 at `dt1 = 0`, `dt2 = 120`,
`f = 60`: here the range is an exact multiple of the interval, so both
endpoints appear. -/
theorem C9_amended_dt_list_witness :
    (create_dt_list 0 120 60).head? = some 0 ∧
      (∀ x ∈ create_dt_list 0 120 60, ∃ k : ℕ, x = 0 + k * 60) ∧
      (0 : ℚ) ∈ create_dt_list 0 120 60 ∧
      ((120 : ℚ) ∈ create_dt_list 0 120 60 ↔
        ∃ n : ℕ, (120 : ℚ) - 0 = n * 60) :=
  C9_amended_dt_list 0 120 60 (by norm_num) (by norm_num)

/-- The slant table as built inside
`ground_slant_handler.run_slant_at_intervals` (`ac_funcs.py` lines
901-931): timestamps from `create_dt_list`, geometry from
`create_initial_slantdf`, terrain annotation from `add_sh_and_agl`. -/
def slant_build (G : SolarGeom) (h : GroundSlantHandler)
    (dt1 dt2 : ℚ) (dem : ℚ → ℚ → Option ℚ) (interval : ℚ) :
    List SlantRow :=
  add_sh_and_agl
    (create_initial_slantdf G h (create_dt_list dt1 dt2 interval)) dem

/-- Embedding of `multi_df.dropna()`-survival for one annotated row: the
columns of `multi_df` that can hold NaN are `receptor_lat`, `receptor_lon`,
`receptor_shasl` and `receptor_zagl`. -/
def rowAllDefined (r : SlantRow) : Bool :=
  r.receptor_lat.isSome && r.receptor_lon.isSome &&
    r.receptor_shasl.isSome && r.receptor_zagl.isSome

/-- Embedding of `ground_slant_handler.run_slant_at_intervals(dt1, dt2,
my_dem_handler, interval)` (`ac_funcs.py` lines 901-931): builds the
annotated slant table and raises (`Except.error`) when
`len(multi_df.dropna()) == 0`, i.e. when no row has every NaN-able column
defined; otherwise returns the table. -/
def run_slant_at_intervals (G : SolarGeom) (h : GroundSlantHandler)
    (dt1 dt2 : ℚ) (dem : ℚ → ℚ → Option ℚ) (interval : ℚ) :
    Except String (List SlantRow) :=
  if ((slant_build G h dt1 dt2 dem interval).filter
      rowAllDefined).length = 0 then
    Except.error "No receptors in the slant column."
  else
    Except.ok (slant_build G h dt1 dt2 dem interval)

/-- Claim C4: for every instrument position, timestamp range, height list
and terrain lookup, if every row of the slant table built by
`run_slant_at_intervals` has an undefined geographic position or an
undefined ground-level height, then `run_slant_at_intervals` raises
(returns `Except.error`) rather than returning the table. -/
theorem C4_total_failure_guard (G : SolarGeom) (h : GroundSlantHandler)
    (dt1 dt2 : ℚ) (dem : ℚ → ℚ → Option ℚ) (interval : ℚ)
    (hall : ∀ r ∈ slant_build G h dt1 dt2 dem interval,
      r.receptor_lat = none ∨ r.receptor_lon = none ∨
        r.receptor_zagl = none) :
    ∃ e, run_slant_at_intervals G h dt1 dt2 dem interval
      = Except.error e := by
  refine ⟨"No receptors in the slant column.", ?_⟩
  unfold run_slant_at_intervals
  have hfil : (slant_build G h dt1 dt2 dem interval).filter rowAllDefined
      = [] := by
    rw [List.filter_eq_nil_iff]
    intro r hr
    rcases hall r hr with hc | hc | hc <;>
      simp [rowAllDefined, hc]
  rw [hfil]
  rfl

/-- Concrete handler for the C4 witness: a mid-latitude instrument with a
single receptor height. -/
def C4_handler : GroundSlantHandler :=
  { inst_lat := 40, inst_lon := -111, inst_zasl := 1492, z_ail_list := [0] }

/-- Concrete DEM for the C4 witness (its value is never reached: the sun
is below the horizon at every row). -/
def C4_dem : ℚ → ℚ → Option ℚ := fun _ _ => some 1300

theorem C4_total_failure_guard_witness :
    ∃ e, run_slant_at_intervals nightGeom C4_handler 0 0 C4_dem 3600
      = Except.error e :=
  C4_total_failure_guard nightGeom C4_handler 0 0 C4_dem 3600
    (by
      intro r hr
      left
      unfold slant_build add_sh_and_agl create_initial_slantdf
        create_dt_list date_range at hr
      rw [if_pos (by norm_num)] at hr
      norm_num [C4_handler, List.range_succ, List.product,
        slant_lat_lon, nightGeom, get_nearest_elev_lifted] at hr
      rw [hr])

/-- Concrete witness for C2 at the concrete annotated one-row table. -/
theorem C2_dense_sim_ids_witness :
    (slant_df_to_rec_df (add_sh_and_agl [C5_base] C5_dem)).map
        RecRow.sim_id
      = List.range
          (slant_df_to_rec_df (add_sh_and_agl [C5_base] C5_dem)).length :=
  C2_dense_sim_ids (add_sh_and_agl [C5_base] C5_dem)

/-- Concrete witness for C3 at the concrete annotated one-row table. -/
theorem C3_undefined_rows_excluded_witness :
    (slant_df_to_rec_df (add_sh_and_agl [C5_base] C5_dem)).map stripSimId
        = (add_sh_and_agl [C5_base] C5_dem).filterMap survives ∧
      ∀ r : SlantRow, survives r = none ↔
        (r.receptor_lat = none ∨ r.receptor_lon = none ∨
          r.receptor_zagl = none) :=
  C3_undefined_rows_excluded (add_sh_and_agl [C5_base] C5_dem)

/-- Concrete witness for C7 at a two-timestamp, two-height handler. -/
theorem C7_cross_product_witness :
    (create_initial_slantdf dayGeom
          { inst_lat := 40, inst_lon := -111, inst_zasl := 1492
            z_ail_list := [0, 100] } [0, 3600]).map
        (fun r => (r.dt, r.z_ail))
        = List.product [0, 3600] [0, 100] ∧
      ∀ r ∈ create_initial_slantdf dayGeom
          { inst_lat := 40, inst_lon := -111, inst_zasl := 1492
            z_ail_list := [0, 100] } [0, 3600],
        r.receptor_zasl = (1492 : ℚ) + r.z_ail :=
  C7_cross_product dayGeom
    { inst_lat := 40, inst_lon := -111, inst_zasl := 1492
      z_ail_list := [0, 100] } [0, 3600]

/-- One row of an oof dataframe as used by `oof_manager.check_get_loc`:
the three instrument-position columns added by `df_from_oof`. -/
structure OofRow where
  inst_lat : ℚ
  inst_lon : ℚ
  inst_zasl : ℚ
deriving DecidableEq

/-- Embedding of `pdcol_is_equal(pdcol)` (`ac_funcs.py` lines 311-322):
`a = pdcol.to_numpy(); (a[0] == a).all()` — every value of the column is
compared against the first.  On an empty column `a[0]` raises a numpy
`IndexError`, modelled as the error branch. -/
def pdcol_is_equal (pdcol : List ℚ) : Except String Bool :=
  match pdcol with
  | [] => Except.error "IndexError"
  | a :: rest => Except.ok ((a :: rest).all fun x => decide (x = a))

/-- Embedding of `oof_manager.check_get_loc(oof_df)` (`ac_funcs.py` lines
814-837): for each of `inst_lat`, `inst_lon`, `inst_zasl` in that order,
raise if `pdcol_is_equal` is false (the source message is the literal
non-f-string `'{col} is not the same …'`); once all three checks pass,
return the values of the first row (`iloc[0]`).  The final empty-frame
branch is unreachable (an empty frame already fails the first check) but
is needed for totality. -/
def check_get_loc (oof_df : List OofRow) : Except String (ℚ × ℚ × ℚ) :=
  match pdcol_is_equal (oof_df.map OofRow.inst_lat) with
  | Except.error e => Except.error e
  | Except.ok b1 =>
    if b1 = false then
      Except.error
        "{col} is not the same for the entire oof_df. This is an edge case."
    else
      match pdcol_is_equal (oof_df.map OofRow.inst_lon) with
      | Except.error e => Except.error e
      | Except.ok b2 =>
        if b2 = false then
          Except.error
            "{col} is not the same for the entire oof_df. This is an edge case."
        else
          match pdcol_is_equal (oof_df.map OofRow.inst_zasl) with
          | Except.error e => Except.error e
          | Except.ok b3 =>
            if b3 = false then
              Except.error
                "{col} is not the same for the entire oof_df. This is an edge case."
            else
              match oof_df with
              | [] => Except.error "IndexError"
              | r :: _ => Except.ok (r.inst_lat, r.inst_lon, r.inst_zasl)

/-- A column is constant: no two of its values differ. -/
def colConst (l : List ℚ) : Prop := ∀ x ∈ l, ∀ y ∈ l, x = y

theorem all_eq_head_iff_colConst (a : ℚ) (t : List ℚ) :
    ((a :: t).all fun x => decide (x = a)) = true ↔ colConst (a :: t) := by
  rw [List.all_eq_true]
  constructor
  · intro hall x hx y hy
    have hx' := hall x hx
    have hy' := hall y hy
    simp only [decide_eq_true_eq] at hx' hy'
    rw [hx', hy']
  · intro hc x hx
    simp only [decide_eq_true_eq]
    exact hc x hx a (List.mem_cons_self a t)

/-- Claim C8: for every non-empty oof dataframe, if the instrument
latitude, longitude and elevation columns are all constant then
`check_get_loc` returns the position taken from the first row, and if any
of the three columns contains two differing values then `check_get_loc`
raises — a non-constant position is never silently averaged. -/
theorem C8_position_constancy_checked (r : OofRow) (rest : List OofRow) :
    ((colConst ((r :: rest).map OofRow.inst_lat) ∧
        colConst ((r :: rest).map OofRow.inst_lon) ∧
        colConst ((r :: rest).map OofRow.inst_zasl)) →
      check_get_loc (r :: rest)
        = Except.ok (r.inst_lat, r.inst_lon, r.inst_zasl)) ∧
    ((¬ (colConst ((r :: rest).map OofRow.inst_lat) ∧
        colConst ((r :: rest).map OofRow.inst_lon) ∧
        colConst ((r :: rest).map OofRow.inst_zasl))) →
      ∃ e, check_get_loc (r :: rest) = Except.error e) := by
  have hlat : pdcol_is_equal ((r :: rest).map OofRow.inst_lat)
      = Except.ok ((r.inst_lat :: rest.map OofRow.inst_lat).all
          fun x => decide (x = r.inst_lat)) := by
    rw [List.map_cons]; rfl
  have hlon : pdcol_is_equal ((r :: rest).map OofRow.inst_lon)
      = Except.ok ((r.inst_lon :: rest.map OofRow.inst_lon).all
          fun x => decide (x = r.inst_lon)) := by
    rw [List.map_cons]; rfl
  have hzasl : pdcol_is_equal ((r :: rest).map OofRow.inst_zasl)
      = Except.ok ((r.inst_zasl :: rest.map OofRow.inst_zasl).all
          fun x => decide (x = r.inst_zasl)) := by
    rw [List.map_cons]; rfl
  constructor
  · rintro ⟨h1, h2, h3⟩
    rw [List.map_cons] at h1 h2 h3
    have b1 := (all_eq_head_iff_colConst _ _).mpr h1
    have b2 := (all_eq_head_iff_colConst _ _).mpr h2
    have b3 := (all_eq_head_iff_colConst _ _).mpr h3
    unfold check_get_loc
    rw [hlat, hlon, hzasl]
    simp only [b1, b2, b3]
    rfl
  · intro hnc
    unfold check_get_loc
    rw [hlat, hlon, hzasl]
    rcases hb1 : ((r.inst_lat :: rest.map OofRow.inst_lat).all
        fun x => decide (x = r.inst_lat)) with _ | _
    · exact ⟨_, rfl⟩
    · rcases hb2 : ((r.inst_lon :: rest.map OofRow.inst_lon).all
          fun x => decide (x = r.inst_lon)) with _ | _
      · exact ⟨_, rfl⟩
      · rcases hb3 : ((r.inst_zasl :: rest.map OofRow.inst_zasl).all
            fun x => decide (x = r.inst_zasl)) with _ | _
        · exact ⟨_, rfl⟩
        · exfalso
          apply hnc
          rw [List.map_cons, List.map_cons, List.map_cons]
          exact ⟨(all_eq_head_iff_colConst _ _).mp hb1,
            (all_eq_head_iff_colConst _ _).mp hb2,
            (all_eq_head_iff_colConst _ _).mp hb3⟩

/-- Concrete witness for C8: a one-row dataframe is trivially constant and
returns its own position. -/
theorem C8_position_constancy_checked_witness :
    check_get_loc [{ inst_lat := 1, inst_lon := 2, inst_zasl := 3 }]
      = Except.ok (1, 2, 3) :=
  (C8_position_constancy_checked
      { inst_lat := 1, inst_lon := 2, inst_zasl := 3 } []).1
    (by
      refine ⟨?_, ?_, ?_⟩ <;>
        · intro x hx y hy
          simp only [List.map_cons, List.map_nil, List.mem_singleton] at hx hy
          rw [hx, hy])

/-- A pandas DataFrame object at one of the stages of
`slant_df_to_rec_df`: the caller's slant frame, the renamed/selected
seven-column frame, the post-`dropna` frame, or the final receptor frame.
Used by the heap model of the function body, which tracks which Python
object each statement mutates. -/
inductive Frame where
  | slantF (rows : List SlantRow)
  | midF (rows : List MidRow)
  | dropF (rows : List DroppedRow)
  | recF (rows : List RecRow)
deriving DecidableEq

/-- Heap allocation: a fresh object is appended and its index returned. -/
def halloc (h : List Frame) (f : Frame) : List Frame × Nat :=
  (h ++ [f], h.length)

/-- Heap read at an object index. -/
def hread (h : List Frame) (i : Nat) : Frame :=
  (h[i]?).getD (Frame.slantF [])

/-- Heap write (in-place mutation) at an object index. -/
def hwrite (h : List Frame) (i : Nat) (f : Frame) : List Frame :=
  h.set i f

/-- `df.copy()`: a value copy placed in a fresh object. -/
def copyF : Frame → Frame := fun f => f

/-- `df1.reset_index()`: returns a new object; the index levels are
already modelled as row fields, so the content is unchanged. -/
def reset_indexF : Frame → Frame := fun f => f

/-- `df1.rename(columns=…)`: returns a new object; column names are
implicit in the typed row fields. -/
def renameF : Frame → Frame := fun f => f

/-- `df1[['run_times','lati','long','zagl','z_is_agl','zasl','zail']]`:
returns a new object holding the selected columns. -/
def selectF : Frame → Frame
  | Frame.slantF rows => Frame.midF (rows.map selectRow)
  | f => f

/-- In-place `df1['lati'] = df1['lati'].round(4)`. -/
def roundLatiF : Frame → Frame
  | Frame.midF rows => Frame.midF (rows.map roundLati)
  | f => f

/-- In-place `df1['long'] = df1['long'].round(4)`. -/
def roundLongF : Frame → Frame
  | Frame.midF rows => Frame.midF (rows.map roundLong)
  | f => f

/-- In-place `df1['zagl'] = df1['zagl'].round(2)`. -/
def roundZaglF : Frame → Frame
  | Frame.midF rows => Frame.midF (rows.map roundZagl)
  | f => f

/-- In-place `df1['run_times'] = df1['run_times'].round('S')`. -/
def roundRunTimesF : Frame → Frame
  | Frame.midF rows => Frame.midF (rows.map roundRunTimes)
  | f => f

/-- `df1.dropna()`: returns a new object holding the surviving rows. -/
def dropnaF : Frame → Frame
  | Frame.midF rows => Frame.dropF (rows.filterMap dropnaRow)
  | f => f

/-- `df1.reset_index(drop=True)`: returns a new object, same content. -/
def reset_index_dropF : Frame → Frame := fun f => f

/-- `df1.reset_index()` after the drop: returns a new object in which the
fresh dense positional index becomes a column — the simulation ids. -/
def reset_index2F : Frame → Frame
  | Frame.dropF rows => Frame.recF (assignSimIds rows)
  | f => f

/-- `df1.rename(columns={'index':'sim_id'})`: new object, same content. -/
def renameSimF : Frame → Frame := fun f => f

/-- A statement `df1 = op(df1)` binding the name to a fresh object. -/
def allocStep (op : Frame → Frame) (s : List Frame × Nat) :
    List Frame × Nat :=
  (s.1 ++ [op (hread s.1 s.2)], s.1.length)

/-- A statement mutating the object currently bound to `df1` in place. -/
def writeStep (op : Frame → Frame) (s : List Frame × Nat) :
    List Frame × Nat :=
  (hwrite s.1 s.2 (op (hread s.1 s.2)), s.2)

/-- The body of `slant_df_to_rec_df` as a heap program: the state is the
heap and the index of the object currently bound to the Python name
`df1`; `df` is the caller's object index.  Statements that return a new
frame allocate; the four rounding column assignments mutate in place. -/
def slant_df_to_rec_df_prog (h0 : List Frame) (df : Nat) :
    List Frame × Nat :=
  allocStep renameSimF
    (allocStep reset_index2F
      (allocStep reset_index_dropF
        (allocStep dropnaF
          (writeStep roundRunTimesF
            (writeStep roundZaglF
              (writeStep roundLongF
                (writeStep roundLatiF
                  (allocStep selectF
                    (allocStep renameF
                      (allocStep reset_indexF
                        (allocStep copyF (h0, df))))))))))))

theorem hread_concat_lt {h : List Frame} {i : Nat} (f : Frame)
    (hi : i < h.length) : hread (h ++ [f]) i = hread h i := by
  unfold hread
  rw [List.getElem?_append_left hi]

theorem hread_concat_self (h : List Frame) (f : Frame) :
    hread (h ++ [f]) h.length = f := by
  unfold hread
  rw [List.getElem?_concat_length]
  rfl

theorem hread_set_self {h : List Frame} {i : Nat} (f : Frame)
    (hi : i < h.length) : hread (h.set i f) i = f := by
  unfold hread
  simp [List.getElem?_set_self', List.getElem?_eq_getElem hi]

theorem hread_set_ne {h : List Frame} {i j : Nat} (f : Frame)
    (hne : j ≠ i) : hread (h.set j f) i = hread h i := by
  unfold hread
  rw [List.getElem?_set_ne hne]

/-- The frame-preservation invariant threaded through the heap program:
the caller's object is unchanged, the current `df1` object is distinct
from (indeed beyond) the caller's, and is a valid heap index. -/
structure HeapInv (h0 : List Frame) (df : Nat) (s : List Frame × Nat) :
    Prop where
  pres : hread s.1 df = hread h0 df
  dflt : df < s.2
  reflt : s.2 < s.1.length

theorem heapInv_alloc (op : Frame → Frame) {h0 : List Frame} {df : Nat}
    {s : List Frame × Nat} (h : HeapInv h0 df s) :
    HeapInv h0 df (allocStep op s) := by
  obtain ⟨hp, hb, hl⟩ := h
  have hdf : df < s.1.length := lt_trans hb hl
  refine ⟨?_, ?_, ?_⟩
  · rw [← hp]
    exact hread_concat_lt _ hdf
  · exact hdf
  · simp [allocStep]

theorem heapInv_write (op : Frame → Frame) {h0 : List Frame} {df : Nat}
    {s : List Frame × Nat} (h : HeapInv h0 df s) :
    HeapInv h0 df (writeStep op s) := by
  obtain ⟨hp, hb, hl⟩ := h
  refine ⟨?_, hb, ?_⟩
  · rw [← hp]
    exact hread_set_ne _ (Nat.ne_of_gt hb)
  · simpa [writeStep, hwrite] using hl

theorem cur_alloc (op : Frame → Frame) (s : List Frame × Nat) :
    hread (allocStep op s).1 (allocStep op s).2 = op (hread s.1 s.2) :=
  hread_concat_self _ _

theorem cur_write (op : Frame → Frame) (s : List Frame × Nat)
    (hl : s.2 < s.1.length) :
    hread (writeStep op s).1 (writeStep op s).2 = op (hread s.1 s.2) :=
  hread_set_self _ hl

/-- Claim C10: `slant_df_to_rec_df` operates on a copy.  In the heap model
of its body, after the call the caller's frame is unchanged — every
statement either rebinds `df1` to a freshly allocated object or mutates an
object allocated after (hence distinct from) the caller's — and the object
finally bound to `df1` holds exactly the pure function's result. -/
theorem C10_formatter_input_unchanged (h0 : List Frame) (df : Nat)
    (hdf : df < h0.length) :
    hread (slant_df_to_rec_df_prog h0 df).1 df = hread h0 df ∧
      ∀ rows : List SlantRow, hread h0 df = Frame.slantF rows →
        hread (slant_df_to_rec_df_prog h0 df).1
            (slant_df_to_rec_df_prog h0 df).2
          = Frame.recF (slant_df_to_rec_df rows) := by
  have base : HeapInv h0 df (allocStep copyF (h0, df)) := by
    refine ⟨hread_concat_lt _ hdf, hdf, ?_⟩
    simp [allocStep]
  have i2 := heapInv_alloc reset_indexF base
  have i3 := heapInv_alloc renameF i2
  have i4 := heapInv_alloc selectF i3
  have i5 := heapInv_write roundLatiF i4
  have i6 := heapInv_write roundLongF i5
  have i7 := heapInv_write roundZaglF i6
  have i8 := heapInv_write roundRunTimesF i7
  have i9 := heapInv_alloc dropnaF i8
  have i10 := heapInv_alloc reset_index_dropF i9
  have i11 := heapInv_alloc reset_index2F i10
  have i12 := heapInv_alloc renameSimF i11
  constructor
  · exact i12.pres
  · intro rows hrows
    have c0 : hread (h0, df).1 (h0, df).2 = Frame.slantF rows := hrows
    have c1 := cur_alloc copyF (h0, df)
    have c2 := cur_alloc reset_indexF (allocStep copyF (h0, df))
    have c3 := cur_alloc renameF
      (allocStep reset_indexF (allocStep copyF (h0, df)))
    have c4 := cur_alloc selectF
      (allocStep renameF (allocStep reset_indexF (allocStep copyF (h0, df))))
    have c5 := cur_write roundLatiF
      (allocStep selectF (allocStep renameF
        (allocStep reset_indexF (allocStep copyF (h0, df))))) i4.reflt
    have c6 := cur_write roundLongF
      (writeStep roundLatiF (allocStep selectF (allocStep renameF
        (allocStep reset_indexF (allocStep copyF (h0, df)))))) i5.reflt
    have c7 := cur_write roundZaglF
      (writeStep roundLongF (writeStep roundLatiF (allocStep selectF
        (allocStep renameF (allocStep reset_indexF
          (allocStep copyF (h0, df))))))) i6.reflt
    have c8 := cur_write roundRunTimesF
      (writeStep roundZaglF (writeStep roundLongF (writeStep roundLatiF
        (allocStep selectF (allocStep renameF (allocStep reset_indexF
          (allocStep copyF (h0, df)))))))) i7.reflt
    have c9 := cur_alloc dropnaF
      (writeStep roundRunTimesF (writeStep roundZaglF (writeStep roundLongF
        (writeStep roundLatiF (allocStep selectF (allocStep renameF
          (allocStep reset_indexF (allocStep copyF (h0, df)))))))))
    have c10 := cur_alloc reset_index_dropF
      (allocStep dropnaF (writeStep roundRunTimesF (writeStep roundZaglF
        (writeStep roundLongF (writeStep roundLatiF (allocStep selectF
          (allocStep renameF (allocStep reset_indexF
            (allocStep copyF (h0, df))))))))))
    have c11 := cur_alloc reset_index2F
      (allocStep reset_index_dropF (allocStep dropnaF
        (writeStep roundRunTimesF (writeStep roundZaglF (writeStep roundLongF
          (writeStep roundLatiF (allocStep selectF (allocStep renameF
            (allocStep reset_indexF (allocStep copyF (h0, df)))))))))))
    have c12 := cur_alloc renameSimF
      (allocStep reset_index2F (allocStep reset_index_dropF
        (allocStep dropnaF (writeStep roundRunTimesF (writeStep roundZaglF
          (writeStep roundLongF (writeStep roundLatiF (allocStep selectF
            (allocStep renameF (allocStep reset_indexF
              (allocStep copyF (h0, df))))))))))))
    unfold slant_df_to_rec_df_prog
    rw [c12, c11, c10, c9, c8, c7, c6, c5, c4, c3, c2, c1, c0]
    unfold renameSimF reset_index2F reset_index_dropF dropnaF roundRunTimesF
      roundZaglF roundLongF roundLatiF selectF renameF reset_indexF copyF
      slant_df_to_rec_df
    rfl

/-- Concrete witness for C10: a one-object heap whose object 0 is a slant
frame; the program leaves object 0 untouched and its result object holds
the pure formatter output. -/
theorem C10_formatter_input_unchanged_witness :
    hread (slant_df_to_rec_df_prog [Frame.slantF []] 0).1 0
        = hread [Frame.slantF []] 0 ∧
      ∀ rows : List SlantRow,
        hread [Frame.slantF []] 0 = Frame.slantF rows →
          hread (slant_df_to_rec_df_prog [Frame.slantF []] 0).1
              (slant_df_to_rec_df_prog [Frame.slantF []] 0).2
            = Frame.recF (slant_df_to_rec_df rows) :=
  C10_formatter_input_unchanged [Frame.slantF []] 0 (by norm_num)

end AtmosColumn
